import Mathlib

/-!
Verification of `infra/terraform/modules/api/lambda_placeholder/handler.py`
(Leads-Funnel repository).

The handler is a placeholder AWS Lambda entry point.  We give a shallow
embedding of the Python module: Python values that can occur in a Lambda
event (the event is produced by JSON decoding, so its values are exactly
the JSON-decodable Python values), the behaviour of `json.loads` on
strings, and the two functions `lambda_handler` and `_error_response`.

Modelling conventions:
  * `uuid.uuid4()` is nondeterministic; its string form `str(uuid.uuid4())`
    is passed to the model as the explicit argument `uuid4`.
  * `datetime.utcnow().isoformat()` is passed as the explicit argument
    `utcnow`; the code appends `"Z"` to it, which the model keeps.
  * `os.environ` is modelled by the `Env` structure holding the four
    variables the module reads.
  * The Lambda `context` is modelled as `Option String`: `none` is a falsy
    context (Python `None`), `some rid` a context whose `aws_request_id`
    is `rid`.
  * `json.dumps` on the response body is modelled by carrying the Python
    value itself in the `body` field of `Response`; serialisation of these
    values is injective, so every claim about the JSON-decoded body is a
    claim about this value.
  * Python floats are represented by their JSON numeral lexeme (`pyFloat`);
    the handler never inspects a parsed value, so only truthiness of a
    float can matter, and only for choosing between two branches that
    return the same response.
-/

namespace LeadsFunnel

/-- Python values as they occur in a JSON-decoded Lambda event and in the
results of `json.loads`: `None`, booleans, integers, floats (kept as their
numeral lexeme), strings, lists and string-keyed dicts (kept as ordered
association lists). -/
inductive PyVal where
  | pyNone : PyVal
  | pyBool : Bool → PyVal
  | pyInt : Int → PyVal
  | pyFloat : String → PyVal
  | pyStr : String → PyVal
  | pyList : List PyVal → PyVal
  | pyDict : List (String × PyVal) → PyVal

/-- Python dict lookup `d.get(k)`: `some` of the stored value, `none` when
the key is absent (Python returns `None`; the handler only tests the
result for truthiness, and `None` is falsy, so `none` is faithful). -/
def dictGet (d : List (String × PyVal)) (k : String) : Option PyVal :=
  match d.find? (fun kv => kv.1 == k) with
  | some kv => some kv.2
  | Option.none => Option.none

/-- A JSON numeral lexeme denotes zero iff every mantissa digit (before any
exponent marker) is `0`; `NaN` and the infinities are nonzero.  (Exponent
underflow such as `1e-400`, which CPython rounds to `0.0`, is not modelled;
the handler's response does not depend on float truthiness.) -/
def floatLexZero (s : String) : Bool :=
  let mant := s.toList.takeWhile (fun c => !(c == 'e' || c == 'E'))
  let ds := mant.filter Char.isDigit
  !ds.isEmpty && ds.all (fun c => c == '0')

/-- Python truthiness (`bool(v)`) of the modelled values. -/
def truthy : PyVal → Bool
  | PyVal.pyNone => false
  | PyVal.pyBool b => b
  | PyVal.pyInt n => !(n == 0)
  | PyVal.pyFloat lx => !(floatLexZero lx)
  | PyVal.pyStr s => !(s == "")
  | PyVal.pyList xs => !xs.isEmpty
  | PyVal.pyDict kvs => !kvs.isEmpty

/-! ### `json.loads` on strings

A recursive-descent parser for the grammar accepted by CPython's
`json.loads` with its defaults: the four JSON whitespace characters,
`null` / `true` / `false`, numbers (with the leading-zero restriction,
fractions and exponents, plus CPython's `NaN` / `Infinity` / `-Infinity`),
strings in strict mode (raw control characters rejected, the eight
single-character escapes and `\uXXXX`), arrays and objects.  Nesting is
handled with a fuel argument large enough for any input of the given
length. -/

/-- JSON whitespace. -/
def isJsonWs (c : Char) : Bool :=
  c == ' ' || c == '\t' || c == '\n' || c == '\r'

/-- Drop leading JSON whitespace. -/
def skipWs : List Char → List Char
  | [] => []
  | c :: cs => if isJsonWs c then skipWs cs else c :: cs

/-- Hexadecimal digit test for `\u` escapes. -/
def isHexDigit (c : Char) : Bool :=
  c.isDigit || ('a' ≤ c && c ≤ 'f') || ('A' ≤ c && c ≤ 'F')

/-- Value of a hexadecimal digit. -/
def hexVal (c : Char) : Nat :=
  if c.isDigit then c.toNat - '0'.toNat
  else if 'a' ≤ c then c.toNat - 'a'.toNat + 10
  else c.toNat - 'A'.toNat + 10

/-- The eight single-character string escapes of JSON. -/
def escChar : Char → Option Char
  | '"' => some '"'
  | '\\' => some '\\'
  | '/' => some '/'
  | 'b' => some (Char.ofNat 8)
  | 'f' => some (Char.ofNat 12)
  | 'n' => some '\n'
  | 'r' => some '\r'
  | 't' => some '\t'
  | _ => Option.none

/-- Parse the body of a JSON string (the opening quote already consumed):
returns the decoded string and the input after the closing quote.  Strict
mode: a raw character below `0x20` is rejected. -/
def parseStringBody : List Char → Option (String × List Char)
  | [] => Option.none
  | '"' :: cs => some ("", cs)
  | '\\' :: 'u' :: a :: b :: c :: d :: cs =>
    if isHexDigit a && isHexDigit b && isHexDigit c && isHexDigit d then
      match parseStringBody cs with
      | some p =>
        some (String.mk [Char.ofNat (((hexVal a * 16 + hexVal b) * 16 + hexVal c) * 16 + hexVal d)] ++ p.1, p.2)
      | Option.none => Option.none
    else Option.none
  | '\\' :: e :: cs =>
    match escChar e with
    | some ec =>
      match parseStringBody cs with
      | some p => some (String.mk [ec] ++ p.1, p.2)
      | Option.none => Option.none
    | Option.none => Option.none
  | c :: cs =>
    if c.toNat < 32 then Option.none
    else
      match parseStringBody cs with
      | some p => some (String.mk [c] ++ p.1, p.2)
      | Option.none => Option.none

/-- Split off a maximal run of decimal digits. -/
def splitDigits (cs : List Char) : List Char × List Char :=
  (cs.takeWhile Char.isDigit, cs.dropWhile Char.isDigit)

/-- Numeric value of a digit run. -/
def digitsToNat (ds : List Char) : Nat :=
  ds.foldl (fun acc c => acc * 10 + (c.toNat - '0'.toNat)) 0

/-- Parse an optional fraction part `.digits`; `none` on a dot without
digits, otherwise whether a fraction was present and the rest. -/
def parseFrac : List Char → Option (Bool × List Char)
  | '.' :: r =>
    let p := splitDigits r
    if p.1.isEmpty then Option.none else some (true, p.2)
  | cs => some (false, cs)

/-- Parse an optional exponent part `(e|E)(+|-)? digits`. -/
def parseExp : List Char → Option (Bool × List Char)
  | [] => some (false, [])
  | c :: r =>
    if c == 'e' || c == 'E' then
      let r2 := match r with
        | s :: r3 => if s == '+' || s == '-' then r3 else s :: r3
        | [] => []
      let p := splitDigits r2
      if p.1.isEmpty then Option.none else some (true, p.2)
    else some (false, c :: r)

/-- Parse a JSON number starting at the input.  Leading zeros are rejected
as in JSON; a number with a fraction or exponent is a Python float, kept
as its lexeme, an integer numeral is a Python int. -/
def parseNumber (cs : List Char) : Option (PyVal × List Char) :=
  let pneg : Bool × List Char := match cs with
    | '-' :: r => (true, r)
    | _ => (false, cs)
  let ip := splitDigits pneg.2
  if ip.1.isEmpty then Option.none
  else if ip.1.length > 1 && ip.1.headD '1' == '0' then Option.none
  else match parseFrac ip.2 with
    | Option.none => Option.none
    | some fr =>
      match parseExp fr.2 with
      | Option.none => Option.none
      | some ex =>
        if fr.1 || ex.1 then
          some (PyVal.pyFloat (String.mk (cs.take (cs.length - ex.2.length))), ex.2)
        else
          let n : Int := Int.ofNat (digitsToNat ip.1)
          some (PyVal.pyInt (if pneg.1 then -n else n), ex.2)

mutual

/-- Parse one JSON value (after skipping whitespace), with fuel bounding
the recursion depth. -/
def parseVal : Nat → List Char → Option (PyVal × List Char)
  | 0, _ => Option.none
  | Nat.succ fuel, cs =>
    match skipWs cs with
    | [] => Option.none
    | c :: rest =>
      if c == '"' then
        match parseStringBody rest with
        | some p => some (PyVal.pyStr p.1, p.2)
        | Option.none => Option.none
      else if c == '[' then
        match skipWs rest with
        | ']' :: r2 => some (PyVal.pyList [], r2)
        | r2 =>
          match parseArrItems fuel r2 with
          | some p => some (PyVal.pyList p.1, p.2)
          | Option.none => Option.none
      else if c == '\x7b' then
        match skipWs rest with
        | '\x7d' :: r2 => some (PyVal.pyDict [], r2)
        | r2 =>
          match parseObjItems fuel r2 with
          | some p => some (PyVal.pyDict p.1, p.2)
          | Option.none => Option.none
      else if c == 'n' then
        match rest with
        | 'u' :: 'l' :: 'l' :: r => some (PyVal.pyNone, r)
        | _ => Option.none
      else if c == 't' then
        match rest with
        | 'r' :: 'u' :: 'e' :: r => some (PyVal.pyBool true, r)
        | _ => Option.none
      else if c == 'f' then
        match rest with
        | 'a' :: 'l' :: 's' :: 'e' :: r => some (PyVal.pyBool false, r)
        | _ => Option.none
      else if c == 'N' then
        match rest with
        | 'a' :: 'N' :: r => some (PyVal.pyFloat "NaN", r)
        | _ => Option.none
      else if c == 'I' then
        match rest with
        | 'n' :: 'f' :: 'i' :: 'n' :: 'i' :: 't' :: 'y' :: r =>
          some (PyVal.pyFloat "Infinity", r)
        | _ => Option.none
      else if c == '-' then
        match rest with
        | 'I' :: 'n' :: 'f' :: 'i' :: 'n' :: 'i' :: 't' :: 'y' :: r =>
          some (PyVal.pyFloat "-Infinity", r)
        | _ => parseNumber (c :: rest)
      else parseNumber (c :: rest)

/-- Parse the comma-separated items of a nonempty array, up to and
including the closing bracket. -/
def parseArrItems : Nat → List Char → Option (List PyVal × List Char)
  | 0, _ => Option.none
  | Nat.succ fuel, cs =>
    match parseVal fuel cs with
    | Option.none => Option.none
    | some p =>
      match skipWs p.2 with
      | ',' :: r2 =>
        match parseArrItems fuel r2 with
        | some q => some (p.1 :: q.1, q.2)
        | Option.none => Option.none
      | ']' :: r2 => some ([p.1], r2)
      | _ => Option.none

/-- Parse the comma-separated members of a nonempty object, up to and
including the closing brace. -/
def parseObjItems : Nat → List Char → Option (List (String × PyVal) × List Char)
  | 0, _ => Option.none
  | Nat.succ fuel, cs =>
    match skipWs cs with
    | '"' :: r =>
      match parseStringBody r with
      | Option.none => Option.none
      | some kp =>
        match skipWs kp.2 with
        | ':' :: r3 =>
          match parseVal fuel r3 with
          | Option.none => Option.none
          | some vp =>
            match skipWs vp.2 with
            | ',' :: r5 =>
              match parseObjItems fuel r5 with
              | some q => some ((kp.1, vp.1) :: q.1, q.2)
              | Option.none => Option.none
            | '\x7d' :: r5 => some ([(kp.1, vp.1)], r5)
            | _ => Option.none
        | _ => Option.none
    | _ => Option.none

end

/-- Model of `json.loads(s)`: parse one value, require only whitespace after it;
`none` models a raised `json.JSONDecodeError`.  The fuel `2 * length + 4`
exceeds the recursion depth any input of this length can demand. -/
def json_loads (s : String) : Option PyVal :=
  match parseVal (2 * s.length + 4) s.toList with
  | some p => if (skipWs p.2).isEmpty then some p.1 else Option.none
  | Option.none => Option.none

/-! ### The handler module -/

/-- The environment variables the module reads: `DYNAMODB_TABLE_NAME`,
`EVENT_BUS_NAME`, `ENVIRONMENT` (handler, lines 62-64) and `LOG_LEVEL`
(module level, line 42).  `none` means the variable is unset. -/
structure Env where
  dynamodbTableName : Option String
  eventBusName : Option String
  environment : Option String
  logLevel : Option String

/-- The API-Gateway-style response dict: `statusCode`, `headers`, and the
`body` value handed to `json.dumps`. -/
structure Response where
  statusCode : Int
  headers : List (String × String)
  body : PyVal

/-- Model of `_error_response(status_code, code, message, details=None)`
(handler.py lines 103-121): success `False`, an `error` object with
`code` and `message`, plus `details` when that argument is truthy
(a non-`None`, nonempty list). -/
def _error_response (status_code : Int) (code : String) (message : String)
    (details : Option (List PyVal)) : Response :=
  let errFields := [("code", PyVal.pyStr code), ("message", PyVal.pyStr message)]
  let errFields2 := match details with
    | some ds => if !ds.isEmpty then errFields ++ [("details", PyVal.pyList ds)] else errFields
    | Option.none => errFields
  ⟨status_code,
   [("Content-Type", "application/json")],
   PyVal.pyDict [("success", PyVal.pyBool false), ("error", PyVal.pyDict errFields2)]⟩

/-- The body-extraction block of `lambda_handler` (lines 66-73): when
`event.get("body")` is truthy and a string it is `json.loads`-parsed, a
`JSONDecodeError` returning the 400 `INVALID_JSON` error response early;
a truthy non-string body is used as is; a falsy or absent body becomes
`{}`. -/
def extractBody (event : List (String × PyVal)) : Except Response PyVal :=
  match dictGet event "body" with
  | some v =>
    if truthy v then
      match v with
      | PyVal.pyStr s =>
        match json_loads s with
        | some parsed => Except.ok parsed
        | Option.none =>
          Except.error (_error_response 400 "INVALID_JSON" "Request body must be valid JSON" Option.none)
      | _ => Except.ok v
    else Except.ok (PyVal.pyDict [])
  | Option.none => Except.ok (PyVal.pyDict [])

/-- Model of `lambda_handler(event, context)` (handler.py lines 47-100).  Beyond
`event` and `context`, the model makes the handler's other inputs
explicit: the environment `env`, the generated `str(uuid.uuid4())` as
`uuid4`, and `datetime.utcnow().isoformat()` as `utcnow`.  The extracted
body is bound and never used, exactly as in the source. -/
def lambda_handler (event : List (String × PyVal)) (context : Option String)
    (env : Env) (uuid4 : String) (utcnow : String) : Response :=
  let _table_name := env.dynamodbTableName
  let _event_bus := env.eventBusName
  let environment := env.environment.getD "dev"
  match extractBody event with
  | Except.error r => r
  | Except.ok _body =>
    let lead_id := uuid4
    let timestamp := utcnow ++ "Z"
    let response_body := PyVal.pyDict [
      ("success", PyVal.pyBool true),
      ("leadId", PyVal.pyStr lead_id),
      ("message", PyVal.pyStr "Thank you for your submission"),
      ("_meta", PyVal.pyDict [
        ("environment", PyVal.pyStr environment),
        ("timestamp", PyVal.pyStr timestamp),
        ("placeholder", PyVal.pyBool true)])]
    ⟨200,
     [("Content-Type", "application/json"),
      ("X-Request-Id", match context with | some rid => rid | Option.none => lead_id)],
     response_body⟩

/-! ### Observation helpers and derived shapes -/

/-- Look a key up in a header list. -/
def headerGet (hs : List (String × String)) (k : String) : Option String :=
  match hs.find? (fun kv => kv.1 == k) with
  | some kv => some kv.2
  | Option.none => Option.none

/-- A top-level field of a response body (when the body is a dict). -/
def bodyField (r : Response) (k : String) : Option PyVal :=
  match r.body with
  | PyVal.pyDict kvs => dictGet kvs k
  | _ => Option.none

/-- A field of the `_meta` object of a response body. -/
def metaField (r : Response) (k : String) : Option PyVal :=
  match bodyField r "_meta" with
  | some (PyVal.pyDict kvs) => dictGet kvs k
  | _ => Option.none

/-- A field of the `error` object of a response body. -/
def errorField (r : Response) (k : String) : Option PyVal :=
  match bodyField r "error" with
  | some (PyVal.pyDict kvs) => dictGet kvs k
  | _ => Option.none

/-- The condition under which `extractBody` succeeds, read off the source:
every body is fine except a truthy string that `json.loads` rejects. -/
def bodyOk (event : List (String × PyVal)) : Bool :=
  match dictGet event "body" with
  | some (PyVal.pyStr s) => if !(s == "") then (json_loads s).isSome else true
  | _ => true

/-- The success response of `lambda_handler` (lines 80-100), as a function
of the context, resolved environment name, generated UUID string and
timestamp. -/
def successResponse (context : Option String) (environment : String)
    (uuid4 : String) (utcnow : String) : Response :=
  ⟨200,
   [("Content-Type", "application/json"),
    ("X-Request-Id", match context with | some rid => rid | Option.none => uuid4)],
   PyVal.pyDict [
     ("success", PyVal.pyBool true),
     ("leadId", PyVal.pyStr uuid4),
     ("message", PyVal.pyStr "Thank you for your submission"),
     ("_meta", PyVal.pyDict [
       ("environment", PyVal.pyStr environment),
       ("timestamp", PyVal.pyStr (utcnow ++ "Z")),
       ("placeholder", PyVal.pyBool true)])]⟩

/-- External state a lead-capture handler could touch: DynamoDB tables
(name to stored items) and the list of events emitted to EventBridge. -/
structure World where
  dynamodbTables : List (String × List PyVal)
  eventBridgeEvents : List PyVal

/-- State-threaded form of `lambda_handler`: the source contains no
DynamoDB write, no EventBridge emission and no assignment into `event`,
so the translation threads the world and the event through unchanged and
produces the pure response. -/
def lambda_handler_effects (w : World) (event : List (String × PyVal))
    (context : Option String) (env : Env) (uuid4 : String) (utcnow : String) :
    World × List (String × PyVal) × Response :=
  (w, event, lambda_handler event context env uuid4 utcnow)

/-! ### Structural lemmas about the handler -/

/-- Unfolding of `lambda_handler` through `extractBody` and
`successResponse`. -/
theorem lambda_handler_eq_match (e : List (String × PyVal)) (c : Option String)
    (env : Env) (u t : String) :
    lambda_handler e c env u t =
      match extractBody e with
      | Except.error r => r
      | Except.ok _ => successResponse c (env.environment.getD "dev") u t := rfl

/-- When `bodyOk` holds, body extraction succeeds. -/
theorem extractBody_eq_ok (e : List (String × PyVal)) (h : bodyOk e = true) :
    ∃ b, extractBody e = Except.ok b := by
  cases hg : dictGet e "body" with
  | none => exact ⟨PyVal.pyDict [], by simp [extractBody, hg]⟩
  | some v =>
    cases hv : truthy v with
    | false => exact ⟨PyVal.pyDict [], by simp [extractBody, hg, hv]⟩
    | true =>
      cases v with
      | pyStr s =>
        simp only [truthy, Bool.not_eq_true'] at hv
        simp only [bodyOk, hg, hv, Bool.not_false, if_true] at h
        obtain ⟨p, hp⟩ := Option.isSome_iff_exists.mp h
        refine ⟨p, ?_⟩
        simp [extractBody, hg, truthy, hv, hp]
      | pyNone => exact ⟨PyVal.pyNone, by simp [extractBody, hg, hv]⟩
      | pyBool b => exact ⟨PyVal.pyBool b, by simp [extractBody, hg, hv]⟩
      | pyInt n => exact ⟨PyVal.pyInt n, by simp [extractBody, hg, hv]⟩
      | pyFloat lx => exact ⟨PyVal.pyFloat lx, by simp [extractBody, hg, hv]⟩
      | pyList xs => exact ⟨PyVal.pyList xs, by simp [extractBody, hg, hv]⟩
      | pyDict kvs => exact ⟨PyVal.pyDict kvs, by simp [extractBody, hg, hv]⟩

/-- Failure of `bodyOk` means exactly: the body is a truthy (nonempty)
string that `json.loads` rejects. -/
theorem bodyOk_false_iff (e : List (String × PyVal)) :
    bodyOk e = false ↔
      ∃ s, dictGet e "body" = some (PyVal.pyStr s) ∧ s ≠ "" ∧ json_loads s = Option.none := by
  cases hg : dictGet e "body" with
  | none => simp [bodyOk, hg]
  | some v =>
    cases v with
    | pyStr s =>
      cases hs : (s == "") with
      | true =>
        have h0 : s = "" := by simpa using hs
        simp [bodyOk, hg, h0]
      | false =>
        have hne : ¬ s = "" := by simpa using hs
        simp only [bodyOk, hg, hs, Bool.not_false, if_true]
        constructor
        · intro hfalse
          exact ⟨s, rfl, hne, by
            cases hl : json_loads s with
            | none => rfl
            | some p => rw [hl] at hfalse; simp at hfalse⟩
        · rintro ⟨s2, hs2, -, hl⟩
          have : s2 = s := by
            have h1 := hs2; injection h1 with h2; injection h2 with h3; exact h3.symm
          subst this
          simp [hl]
    | pyNone => simp [bodyOk, hg]
    | pyBool b => simp [bodyOk, hg]
    | pyInt n => simp [bodyOk, hg]
    | pyFloat lx => simp [bodyOk, hg]
    | pyList xs => simp [bodyOk, hg]
    | pyDict kvs => simp [bodyOk, hg]

/-- When `bodyOk` fails, body extraction returns the one error response
the module can produce. -/
theorem extractBody_err (e : List (String × PyVal)) (h : bodyOk e = false) :
    extractBody e =
      Except.error (_error_response 400 "INVALID_JSON" "Request body must be valid JSON" Option.none) := by
  obtain ⟨s, hg, hne, hl⟩ := (bodyOk_false_iff e).mp h
  have hs : (s == "") = false := by simpa using hne
  simp [extractBody, hg, truthy, hs, hl]

/-- On the success path the handler returns exactly `successResponse`. -/
theorem handler_ok (e : List (String × PyVal)) (c : Option String) (env : Env)
    (u t : String) (h : bodyOk e = true) :
    lambda_handler e c env u t = successResponse c (env.environment.getD "dev") u t := by
  obtain ⟨b, hb⟩ := extractBody_eq_ok e h
  rw [lambda_handler_eq_match, hb]

/-- On the failure path the handler returns exactly the 400
`INVALID_JSON` error response. -/
theorem handler_err (e : List (String × PyVal)) (c : Option String) (env : Env)
    (u t : String) (h : bodyOk e = false) :
    lambda_handler e c env u t =
      _error_response 400 "INVALID_JSON" "Request body must be valid JSON" Option.none := by
  rw [lambda_handler_eq_match, extractBody_err e h]

end LeadsFunnel
namespace LeadsFunnel

/-- C1 -/
theorem c1_success_for_benign_bodies (e : List (String × PyVal)) (c : Option String)
    (env : Env) (u t : String) (h : bodyOk e = true) :
    (lambda_handler e c env u t).statusCode = 200 ∧
    bodyField (lambda_handler e c env u t) "success" = some (PyVal.pyBool true) ∧
    (∃ ls, bodyField (lambda_handler e c env u t) "leadId" = some (PyVal.pyStr ls)) ∧
    bodyField (lambda_handler e c env u t) "message" =
      some (PyVal.pyStr "Thank you for your submission") := by
  rw [handler_ok e c env u t h]
  exact ⟨rfl, rfl, ⟨u, rfl⟩, rfl⟩

/-- C1 witness -/
theorem c1_witness :
    bodyOk [("body", PyVal.pyStr "\x7b\x22email\x22: \x22a@b.co\x22\x7d")] = true ∧
    ((lambda_handler [("body", PyVal.pyStr "\x7b\x22email\x22: \x22a@b.co\x22\x7d")]
        (some "req-1") ⟨some "tbl", some "bus", some "prod", Option.none⟩
        "9a1c" "2025-06-01T10:00:00").statusCode = 200 ∧
      bodyField (lambda_handler [("body", PyVal.pyStr "\x7b\x22email\x22: \x22a@b.co\x22\x7d")]
        (some "req-1") ⟨some "tbl", some "bus", some "prod", Option.none⟩
        "9a1c" "2025-06-01T10:00:00") "success" = some (PyVal.pyBool true) ∧
      (∃ ls, bodyField (lambda_handler [("body", PyVal.pyStr "\x7b\x22email\x22: \x22a@b.co\x22\x7d")]
        (some "req-1") ⟨some "tbl", some "bus", some "prod", Option.none⟩
        "9a1c" "2025-06-01T10:00:00") "leadId" = some (PyVal.pyStr ls)) ∧
      bodyField (lambda_handler [("body", PyVal.pyStr "\x7b\x22email\x22: \x22a@b.co\x22\x7d")]
        (some "req-1") ⟨some "tbl", some "bus", some "prod", Option.none⟩
        "9a1c" "2025-06-01T10:00:00") "message" =
        some (PyVal.pyStr "Thank you for your submission")) :=
  ⟨by decide, c1_success_for_benign_bodies _ _ _ _ _ (by decide)⟩

/-- C2 counterexample -/
theorem c2_counterexample :
    (lambda_handler [("body", PyVal.pyStr "\x7b")] (some "req-2")
        ⟨some "tbl", some "bus", some "prod", Option.none⟩
        "7f3a" "2025-06-01T10:00:00").statusCode ≠ 200 := by decide

/-- C2 amended -/
theorem c2_amended_dichotomy (e : List (String × PyVal)) (c : Option String)
    (env : Env) (u t : String) :
    lambda_handler e c env u t = successResponse c (env.environment.getD "dev") u t ∨
    lambda_handler e c env u t =
      _error_response 400 "INVALID_JSON" "Request body must be valid JSON" Option.none := by
  cases hq : bodyOk e with
  | true => exact Or.inl (handler_ok e c env u t hq)
  | false => exact Or.inr (handler_err e c env u t hq)

/-- C3 -/
theorem c3_invalid_json_characterisation (e : List (String × PyVal)) (c : Option String)
    (env : Env) (u t : String) :
    (lambda_handler e c env u t =
        _error_response 400 "INVALID_JSON" "Request body must be valid JSON" Option.none
      ↔ ∃ s, dictGet e "body" = some (PyVal.pyStr s) ∧ s ≠ "" ∧ json_loads s = Option.none) ∧
    errorField (_error_response 400 "INVALID_JSON" "Request body must be valid JSON" Option.none)
        "details" = Option.none ∧
    ((dictGet e "body" = Option.none ∨ dictGet e "body" = some (PyVal.pyStr "") ∨
        (∃ v, dictGet e "body" = some v ∧ ∀ s, v ≠ PyVal.pyStr s)) →
      (lambda_handler e c env u t).statusCode = 200) := by
  refine ⟨?_, rfl, ?_⟩
  · constructor
    · intro heq
      cases hq : bodyOk e with
      | true =>
        rw [handler_ok e c env u t hq] at heq
        have h200 := congrArg Response.statusCode heq
        simp [successResponse, _error_response] at h200
      | false => exact (bodyOk_false_iff e).mp hq
    · intro hbad
      exact handler_err e c env u t ((bodyOk_false_iff e).mpr hbad)
  · intro hcase
    have hok : bodyOk e = true := by
      rcases hcase with hnone | hempty | ⟨v, hv, hns⟩
      · simp [bodyOk, hnone]
      · simp [bodyOk, hempty]
      · cases v with
        | pyStr s => exact absurd rfl (hns s)
        | pyNone => simp [bodyOk, hv]
        | pyBool b => simp [bodyOk, hv]
        | pyInt n => simp [bodyOk, hv]
        | pyFloat lx => simp [bodyOk, hv]
        | pyList xs => simp [bodyOk, hv]
        | pyDict kvs => simp [bodyOk, hv]
    rw [handler_ok e c env u t hok]
    rfl

/-- C3 witness -/
theorem c3_witness :
    (lambda_handler [("body", PyVal.pyStr "not json")] Option.none
        ⟨Option.none, Option.none, Option.none, Option.none⟩ "u3" "t3" =
      _error_response 400 "INVALID_JSON" "Request body must be valid JSON" Option.none) ∧
    (lambda_handler [("other", PyVal.pyInt 1)] Option.none
        ⟨Option.none, Option.none, Option.none, Option.none⟩ "u3" "t3").statusCode = 200 :=
  ⟨(c3_invalid_json_characterisation _ _ _ _ _).1.mpr ⟨"not json", rfl, by decide, rfl⟩,
   (c3_invalid_json_characterisation _ _ _ _ _).2.2 (Or.inl rfl)⟩

end LeadsFunnel
namespace LeadsFunnel

/-- Request body used by the C4 witness: a 101-character name and a
malformed email. -/
def c4Body : String :=
  "\x7b\x22name\x22: \x22" ++ String.mk (List.replicate 101 'a') ++
    "\x22, \x22email\x22: \x22not-an-email\x22\x7d"

/-- C4 -/
theorem c4_no_validation (e : List (String × PyVal)) (c : Option String)
    (env : Env) (u t : String) (h : bodyOk e = true) :
    lambda_handler e c env u t = successResponse c (env.environment.getD "dev") u t :=
  handler_ok e c env u t h

set_option maxRecDepth 40000 in
/-- C4 witness -/
theorem c4_witness :
    bodyOk [("body", PyVal.pyStr c4Body)] = true ∧
    lambda_handler [("body", PyVal.pyStr c4Body)] (some "req-4")
        ⟨Option.none, Option.none, Option.none, Option.none⟩ "u4" "t4" =
      successResponse (some "req-4") "dev" "u4" "t4" :=
  ⟨by decide, c4_no_validation _ _ _ _ _ (by decide)⟩

/-- C5 -/
theorem c5_fabricated_identifier (e : List (String × PyVal)) (c : Option String)
    (env : Env) (u t : String) (h : bodyOk e = true) :
    bodyField (lambda_handler e c env u t) "leadId" = some (PyVal.pyStr u) ∧
    bodyField (lambda_handler e c env u t) "message" =
      some (PyVal.pyStr "Thank you for your submission") := by
  rw [handler_ok e c env u t h]
  exact ⟨rfl, rfl⟩

/-- C5 witness -/
theorem c5_witness :
    bodyOk [("body", PyVal.pyStr "\x7b\x22leadId\x22: \x22attacker\x22\x7d")] = true ∧
    (bodyField (lambda_handler [("body", PyVal.pyStr "\x7b\x22leadId\x22: \x22attacker\x22\x7d")]
        (some "req-5") ⟨Option.none, Option.none, Option.none, Option.none⟩
        "5e2d" "t5") "leadId" = some (PyVal.pyStr "5e2d") ∧
      bodyField (lambda_handler [("body", PyVal.pyStr "\x7b\x22leadId\x22: \x22attacker\x22\x7d")]
        (some "req-5") ⟨Option.none, Option.none, Option.none, Option.none⟩
        "5e2d" "t5") "message" = some (PyVal.pyStr "Thank you for your submission")) :=
  ⟨by decide, c5_fabricated_identifier _ _ _ _ _ (by decide)⟩

/-- C6 -/
theorem c6_payload_noninterference (e1 e2 : List (String × PyVal)) (c : Option String)
    (env : Env) (u t : String) (h1 : bodyOk e1 = true) (h2 : bodyOk e2 = true) :
    lambda_handler e1 c env u t = lambda_handler e2 c env u t := by
  rw [handler_ok e1 c env u t h1, handler_ok e2 c env u t h2]

/-- C6 witness -/
theorem c6_witness :
    bodyOk [] = true ∧
    bodyOk [("body", PyVal.pyStr "\x7b\x22name\x22: \x22Ada\x22\x7d")] = true ∧
    lambda_handler [] (some "req-6")
        ⟨Option.none, Option.none, some "prod", Option.none⟩ "u6" "t6" =
      lambda_handler [("body", PyVal.pyStr "\x7b\x22name\x22: \x22Ada\x22\x7d")] (some "req-6")
        ⟨Option.none, Option.none, some "prod", Option.none⟩ "u6" "t6" :=
  ⟨by decide, by decide,
   c6_payload_noninterference _ _ _ _ _ _ (by decide) (by decide)⟩

/-- C7 -/
theorem c7_env_vars_inert (e : List (String × PyVal)) (c : Option String)
    (env1 env2 env : Env) (u t : String) :
    (env1.environment = env2.environment →
      lambda_handler e c env1 u t = lambda_handler e c env2 u t) ∧
    (bodyOk e = true →
      metaField (lambda_handler e c env u t) "environment" =
        some (PyVal.pyStr (env.environment.getD "dev"))) := by
  constructor
  · intro h
    rw [lambda_handler_eq_match, lambda_handler_eq_match, h]
  · intro hok
    rw [handler_ok e c env u t hok]
    rfl

/-- C7 witness -/
theorem c7_witness :
    (lambda_handler [] (some "req-7")
        ⟨some "table-a", some "bus-a", Option.none, Option.none⟩ "u7" "t7" =
      lambda_handler [] (some "req-7")
        ⟨some "table-b", Option.none, Option.none, some "DEBUG"⟩ "u7" "t7") ∧
    metaField (lambda_handler [] (some "req-7")
        ⟨some "table-a", some "bus-a", Option.none, Option.none⟩ "u7" "t7")
      "environment" = some (PyVal.pyStr "dev") :=
  ⟨(c7_env_vars_inert [] (some "req-7")
      ⟨some "table-a", some "bus-a", Option.none, Option.none⟩
      ⟨some "table-b", Option.none, Option.none, some "DEBUG"⟩
      ⟨some "table-a", some "bus-a", Option.none, Option.none⟩ "u7" "t7").1 rfl,
   (c7_env_vars_inert [] (some "req-7")
      ⟨some "table-a", some "bus-a", Option.none, Option.none⟩
      ⟨some "table-b", Option.none, Option.none, some "DEBUG"⟩
      ⟨some "table-a", some "bus-a", Option.none, Option.none⟩ "u7" "t7").2 (by decide)⟩

/-- C8 -/
theorem c8_no_external_effects (w : World) (e : List (String × PyVal)) (c : Option String)
    (env : Env) (u t : String) :
    (lambda_handler_effects w e c env u t).1 = w ∧
    (lambda_handler_effects w e c env u t).2.1 = e ∧
    (lambda_handler_effects w e c env u t).2.2 = lambda_handler e c env u t :=
  ⟨rfl, rfl, rfl⟩

/-- C9 -/
theorem c9_response_shape_invariant (e : List (String × PyVal)) (c : Option String)
    (env : Env) (u t : String) :
    headerGet (lambda_handler e c env u t).headers "Content-Type" = some "application/json" ∧
    (bodyField (lambda_handler e c env u t) "success" = some (PyVal.pyBool true) ↔
      (lambda_handler e c env u t).statusCode = 200) := by
  cases hq : bodyOk e with
  | true =>
    rw [handler_ok e c env u t hq]
    exact ⟨rfl, ⟨fun _ => rfl, fun _ => rfl⟩⟩
  | false =>
    rw [handler_err e c env u t hq]
    refine ⟨rfl, ?_, ?_⟩
    · intro hfield
      have hv : bodyField
          (_error_response 400 "INVALID_JSON" "Request body must be valid JSON" Option.none)
          "success" = some (PyVal.pyBool false) := rfl
      rw [hv] at hfield
      simp at hfield
    · intro hsc
      have : (_error_response 400 "INVALID_JSON" "Request body must be valid JSON"
          Option.none).statusCode = 400 := rfl
      rw [this] at hsc
      exact absurd hsc (by decide)

/-- C9 witness -/
theorem c9_witness :
    headerGet (lambda_handler [("body", PyVal.pyStr "\x7b")] Option.none
        ⟨Option.none, Option.none, Option.none, Option.none⟩ "u9" "t9").headers
      "Content-Type" = some "application/json" :=
  (c9_response_shape_invariant _ _ _ _ _).1

/-- C10 -/
theorem c10_request_id_header (e : List (String × PyVal)) (c : Option String)
    (env : Env) (u t : String) (sc : Int) (code msg : String) (d : Option (List PyVal))
    (h : bodyOk e = true) :
    headerGet (lambda_handler e c env u t).headers "X-Request-Id" = some (c.getD u) ∧
    headerGet (_error_response sc code msg d).headers "X-Request-Id" = Option.none := by
  constructor
  · rw [handler_ok e c env u t h]
    cases c with
    | none => rfl
    | some rid => rfl
  · rfl

/-- C10 witness -/
theorem c10_witness :
    bodyOk [] = true ∧
    (headerGet (lambda_handler [] (some "req-10")
        ⟨Option.none, Option.none, Option.none, Option.none⟩ "uA" "tA").headers
      "X-Request-Id" = some "req-10" ∧
     headerGet (_error_response 400 "INVALID_JSON" "Request body must be valid JSON"
        Option.none).headers "X-Request-Id" = Option.none) :=
  ⟨by decide, c10_request_id_header [] (some "req-10")
      ⟨Option.none, Option.none, Option.none, Option.none⟩ "uA" "tA"
      400 "INVALID_JSON" "Request body must be valid JSON" Option.none (by decide)⟩

end LeadsFunnel
